import Mathlib

/-!
Verification of the credential service (`src/api/authApi.ts`) of the
cyano-wallet repository.

The repository's own code is the orchestration in `authApi.ts`: storage
access, the import / unlock control flow, and its error handling.  All
cryptographic and serialization primitives are delegated to the external
`ont-sdk-ts` SDK; those primitives are modelled abstractly as fields of an
`SDK` structure, so every theorem below quantifies over the SDK behaviour
unless a hypothesis pins a needed property down (e.g. that decryption with
the encryption password succeeds).

Effects are modelled by explicit state passing over a `World`:
  * `backend` and `storage` — the storage adapter: a key/value store plus
    the backend selected at module load (`typeof browser === 'undefined'`).
    The two backends represent an absent key differently —
    `localStorage.getItem` returns `null` while `browser.storage.local.get`
    omits missing keys, so reading one gives `undefined` — and `signIn`'s
    strict `=== null` check distinguishes the two, so `storageGet` returns
    a `JSVal` that keeps `null` and `undefined` apart;
  * `netLog` — the list of raw transactions handed to
    `client.sendRawTransaction`, so "performs no network call" is the
    statement that this list is unchanged;
  * `console` — the list of exceptions logged via `console.log`;
  * `uuidCount` — a counter modelling the stream of fresh `uuid()` values.

JavaScript exceptions are modelled by `Except Err`.  Errors thrown by
`authApi.ts` itself are the three message-carrying constructors; any
exception arising inside the SDK or the runtime is `Err.exn code` with an
SDK-chosen code (so SDK failures can never be confused with the
repository's own error conditions), and the `TypeError` raised by reading
a property of `undefined` (empty `accounts` array) is `Err.typeError`.
-/

namespace CyanoWallet

/-- Errors observable from the credential service. The first three model the
`throw new Error(...)` statements of `authApi.ts`, identified by message;
`exn` models an exception thrown inside the external SDK or the network
transport (carrying an abstract code); `typeError` models the runtime
`TypeError` raised by accessing a property of `undefined`. -/
inductive Err where
  | walletNotFound      -- 'Wallet data not found.'
  | decryptionError     -- 'Error during wallet decryption.'
  | missingWalletData   -- 'Missing wallet data.'
  | exn (code : Nat)
  | typeError
deriving DecidableEq, Repr

/-- Scrypt parameter block stored in a wallet (`wallet.scrypt` of the SDK's
wallet schema): cost `n`, block size `r`, parallelism `p`, derived key
length `dkLen`. -/
structure Scrypt where
  n : Nat
  r : Nat
  p : Nat
  dkLen : Nat
deriving DecidableEq, Repr

/-- Shape of the scrypt-parameter object literal that `authApi.ts` builds
(`{ blockSize: scrypt.r, cost: scrypt.n, parallel: scrypt.p, size: scrypt.dkLen }`)
and passes to the SDK's create/decrypt calls. -/
structure ScryptParams where
  blockSize : Nat
  cost : Nat
  parallel : Nat
  size : Nat
deriving DecidableEq, Repr

/-- Modelled from the SDK: an address value; `b58` is its base58 string
form (`address.toBase58()`). -/
structure Address where
  b58 : String
deriving DecidableEq, Repr

/-- Modelled from the SDK's wallet schema: an account carries an address, a
base64-encoded salt and an encrypted key (kept abstract as a handle). -/
structure Account where
  address : Address
  salt : String
  encryptedKey : Nat
deriving DecidableEq, Repr

/-- Modelled from the SDK's wallet schema: an identity carries its ONT ID
and the addresses of its control entries (`identity.controls[i].address`). -/
structure Identity where
  ontid : String
  controlAddresses : List String
deriving DecidableEq, Repr

/-- Modelled from the SDK's wallet schema: a wallet owns its identities and
accounts, its scrypt parameters, and the default identity / account
markers. -/
structure Wallet where
  name : String
  scrypt : Scrypt
  identities : List Identity
  accounts : List Account
  defaultOntid : String
  defaultAccountAddress : String
deriving DecidableEq, Repr

/-- Modelled from the SDK: `Wallet.create(name)` returns a fresh empty
wallet carrying the SDK's default scrypt parameters (passed explicitly
here). -/
def Wallet.create (name : String) (scrypt : Scrypt) : Wallet :=
  ⟨name, scrypt, [], [], "", ""⟩

/-- Modelled from the SDK: `wallet.addIdentity(identity)` appends the
identity. -/
def Wallet.addIdentity (w : Wallet) (i : Identity) : Wallet :=
  { w with identities := w.identities ++ [i] }

/-- Modelled from the SDK: `wallet.addAccount(account)` appends the
account. -/
def Wallet.addAccount (w : Wallet) (a : Account) : Wallet :=
  { w with accounts := w.accounts ++ [a] }

/-- Modelled from the SDK: `wallet.setDefaultIdentity(ontid)`. -/
def Wallet.setDefaultIdentity (w : Wallet) (ontid : String) : Wallet :=
  { w with defaultOntid := ontid }

/-- Modelled from the SDK: `wallet.setDefaultAccount(address)`. -/
def Wallet.setDefaultAccount (w : Wallet) (address : String) : Wallet :=
  { w with defaultAccountAddress := address }

/-- Modelled from the SDK: a raw transaction with a mutable `payer` field,
as produced by `OntidContract.buildRegisterOntidTx`. -/
structure Tx where
  payer : String
  data : Nat
deriving DecidableEq, Repr

/-- A JavaScript value as handed back by the storage adapter's `get`: a
stored string, or one of JavaScript's two absent values — `null` and
`undefined` — which strict equality (`===`) keeps apart. -/
inductive JSVal where
  | null
  | undefined
  | str (s : String)
deriving DecidableEq, Repr

/-- The storage backend selected once at module load by the
`typeof browser === 'undefined'` check: the page's `localStorage` or the
extension's `browser.storage.local`. -/
inductive Backend where
  | localStorage
  | extension
deriving DecidableEq, Repr

/-- The external `ont-sdk-ts` surface used by `authApi.ts`, kept abstract.
Private and public keys and encrypted keys are abstract handles (`Nat`);
fallible SDK calls return `Except Nat` where the `Nat` is an SDK-chosen
error code. `parseNonString` is the code of the exception that
`Wallet.parseJson` throws when applied to a non-string value such as
`undefined`. -/
structure SDK where
  defaultScrypt : Scrypt
  uuidGen : Nat → String
  parseJson : String → Except Nat Wallet
  parseJsonObj : String → Except Nat Wallet
  parseNonString : Nat
  toJson : Wallet → String
  decrypt : Nat → String → Address → String → ScryptParams → Except Nat Nat
  deserializeWIF : String → Except Nat Nat
  serializeWIF : Nat → String
  getPublicKey : Nat → Nat
  generateFromMnemonic : String → Except Nat Nat
  createIdentity : Nat → String → String → ScryptParams → Identity
  createAccount : Nat → String → String → ScryptParams → Account
  encSerializeWIF : Nat → String
  buildRegisterOntidTx : String → Nat → String → String → Tx
  signTransaction : Tx → Nat → Tx
  serializeTx : Tx → String
  sendRawTransaction : String → Except Nat String

/-- The world the credential service runs in: the storage backend selected
at module load, the persisted storage, the log of raw transactions
submitted to the network, the console log, and the uuid supply counter. -/
structure World where
  backend : Backend
  storage : List (String × String)
  netLog : List String
  console : List Err
  uuidCount : Nat
deriving DecidableEq, Repr

/-- Association-list lookup backing the storage adapter's `get`. -/
def lookupAssoc : List (String × String) → String → Option String
  | [], _ => none
  | (k', v) :: rest, k => if k' = k then some v else lookupAssoc rest k

/-- Association-list update backing the storage adapter's `set`
(unconditional overwrite). -/
def setAssoc : List (String × String) → String → String → List (String × String)
  | [], k, v => [(k, v)]
  | (k', v') :: rest, k, v =>
      if k' = k then (k, v) :: rest else (k', v') :: setAssoc rest k v

/-- Storage adapter `get`: `storageGet(key)` returns the stored string, or
the backend's own absent value — `null` from `localStorage.getItem`,
`undefined` from `browser.storage.local.get`, whose result object omits
missing keys (the `as string | null` cast does not change the runtime
value). -/
def storageGet (w : World) (key : String) : JSVal :=
  match lookupAssoc w.storage key with
  | some v => .str v
  | none =>
      match w.backend with
      | .localStorage => .null
      | .extension => .undefined

/-- Storage adapter `set`: `storageSet(key, value)` overwrites
unconditionally. -/
def storageSet (w : World) (key value : String) : World :=
  { w with storage := setAssoc w.storage key value }

/-- Storage adapter `clear`: removes all stored keys. -/
def storageClear (w : World) : World :=
  { w with storage := [] }

/-- A fresh `uuid()` value: taken from the uuid supply, advancing the
counter. -/
def freshUuid (sdk : SDK) (w : World) : String × World :=
  (sdk.uuidGen w.uuidCount, { w with uuidCount := w.uuidCount + 1 })

/-- Value of a base64 alphabet character (standard alphabet with `+` and
`/`); `none` for padding and any other character, which `Buffer.from(_,
'base64')` skips. -/
def base64Val (c : Char) : Option Nat :=
  if 'A' ≤ c ∧ c ≤ 'Z' then some (c.toNat - 'A'.toNat)
  else if 'a' ≤ c ∧ c ≤ 'z' then some (c.toNat - 'a'.toNat + 26)
  else if '0' ≤ c ∧ c ≤ '9' then some (c.toNat - '0'.toNat + 52)
  else if c = '+' then some 62
  else if c = '/' then some 63
  else none

/-- Base64 decoding loop: feed 6 bits per alphabet character into an
accumulator and emit a byte whenever 8 bits are available (the semantics of
`Buffer.from(s, 'base64')`: non-alphabet characters are skipped, trailing
bits short of a byte are dropped). -/
def base64DecodeAux : List Char → Nat → Nat → List Nat
  | [], _, _ => []
  | c :: rest, acc, bits =>
      match base64Val c with
      | none => base64DecodeAux rest acc bits
      | some v =>
          let acc' := acc * 64 + v
          let bits' := bits + 6
          if 8 ≤ bits' then
            (acc' / 2 ^ (bits' - 8)) % 256 ::
              base64DecodeAux rest (acc' % 2 ^ (bits' - 8)) (bits' - 8)
          else
            base64DecodeAux rest acc' bits'

/-- Bytes of the base64 decoding of a string. -/
def base64Decode (s : String) : List Nat :=
  base64DecodeAux s.toList 0 0

/-- Lowercase hex digit of a value below 16. -/
def hexDigit (n : Nat) : Char :=
  if n < 10 then Char.ofNat ('0'.toNat + n)
  else Char.ofNat ('a'.toNat + (n - 10))

/-- Lowercase hex rendering of a byte list (`buffer.toString('hex')`). -/
def bytesToHex (bs : List Nat) : String :=
  String.mk (bs.foldr (fun b acc => hexDigit (b / 16) :: hexDigit (b % 16) :: acc) [])

/-- The salt conversion of `decryptWallet`:
`Buffer.from(salt, 'base64').toString('hex')`. -/
def base64ToHex (s : String) : String :=
  bytesToHex (base64Decode s)

/-- The scrypt-parameter object literal built by `authApi.ts` from a
wallet's scrypt block, in both `decryptWallet` and `importPrivateKey`:
`{ blockSize: scrypt.r, cost: scrypt.n, parallel: scrypt.p, size: scrypt.dkLen }`. -/
def scryptParams (s : Scrypt) : ScryptParams :=
  { blockSize := s.r, cost := s.n, parallel := s.p, size := s.dkLen }

/-- Embedding of `clear()`: awaits `storageClear`. -/
def clear (w : World) : World :=
  storageClear w

/-- Embedding of `decryptWallet(wallet, password)`: reads
`wallet.accounts[0]` (a `TypeError` if there is none), converts the
account's salt from base64 to hex, and calls the SDK's
`encryptedKey.decrypt` with the password, the account's address, the hex
salt and the wallet's scrypt parameters. -/
def decryptWallet (sdk : SDK) (wallet : Wallet) (password : String) :
    Except Err Nat :=
  match wallet.accounts with
  | [] => .error .typeError
  | account :: _ =>
      let saltHex := base64ToHex account.salt
      match sdk.decrypt account.encryptedKey password account.address saltHex
          (scryptParams wallet.scrypt) with
      | .ok pk => .ok pk
      | .error c => .error (.exn c)

/-- Body of the try block of `signIn`: parse the stored wallet
(`Wallet.parseJson`) and decrypt its first account's key; any exception
from either step is the value this returns as an error. -/
def signInTry (sdk : SDK) (walletEncoded password : String) : Except Err Nat :=
  match sdk.parseJson walletEncoded with
  | .error c => .error (.exn c)
  | .ok wallet => decryptWallet sdk wallet password

/-- Embedding of `signIn(password)`: loads the `"wallet"` storage entry and
compares it to `null` with strict equality (`walletEncoded === null`),
throwing `Wallet data not found.` — this catches only the localStorage
backend's absent value; the extension backend's `undefined` does not
satisfy the check and falls through into the try block, where
`Wallet.parseJson(undefined)` throws and the catch logs the exception and
masks it as `Error during wallet decryption.`, exactly as for any other
parse or decryption failure. On success returns the still-serialized
wallet string unchanged. -/
def signIn (sdk : SDK) (password : String) (w : World) :
    Except Err String × World :=
  match storageGet w "wallet" with
  | .null => (.error .walletNotFound, w)
  | .undefined =>
      (.error .decryptionError,
       { w with console := w.console ++ [Err.exn sdk.parseNonString] })
  | .str walletEncoded =>
      match signInTry sdk walletEncoded password with
      | .ok _ => (.ok walletEncoded, w)
      | .error e =>
          (.error .decryptionError, { w with console := w.console ++ [e] })

/-- Return shape of `importPrivateKey`. -/
structure ImportResult where
  encryptedWif : String
  wallet : String
  wif : String
deriving DecidableEq, Repr

/-- Return shape of `importMnemonics` (the import result plus the
mnemonics). -/
structure MnemonicsResult where
  mnemonics : String
  encryptedWif : String
  wallet : String
  wif : String
deriving DecidableEq, Repr

/-- Embedding of `importPrivateKey(wif, password, register)`: create a
fresh wallet with default scrypt parameters, deserialize the WIF, derive
the identity; when `register` is true build, sign and submit the ONT ID
registration transaction (its rejection propagates, uncaught); then derive
the account, attach identity and account to the wallet, mark both default,
persist the serialized wallet under `"wallet"` and return
`{ encryptedWif, wallet, wif }`. -/
def importPrivateKey (sdk : SDK) (wif password : String) (register : Bool)
    (w0 : World) : Except Err ImportResult × World :=
  let (walletUuid, w1) := freshUuid sdk w0
  let wallet := Wallet.create walletUuid sdk.defaultScrypt
  let params := scryptParams wallet.scrypt
  match sdk.deserializeWIF wif with
  | .error c => (.error (.exn c), w1)
  | .ok privateKey =>
      let publicKey := sdk.getPublicKey privateKey
      let (identityUuid, w2) := freshUuid sdk w1
      let identity := sdk.createIdentity privateKey password identityUuid params
      let ontId := identity.ontid
      let afterRegister : Except Err Unit × World :=
        if register then
          match identity.controlAddresses with
          | [] => (.error .typeError, w2)
          | payer :: _ =>
              let tx := sdk.buildRegisterOntidTx ontId publicKey "0" "30000"
              let tx := { tx with payer := payer }
              let tx := sdk.signTransaction tx privateKey
              let raw := sdk.serializeTx tx
              let w3 := { w2 with netLog := w2.netLog ++ [raw] }
              match sdk.sendRawTransaction raw with
              | .error c => (.error (.exn c), w3)
              | .ok _ => (.ok (), w3)
        else (.ok (), w2)
      match afterRegister with
      | (.error e, w3) => (.error e, w3)
      | (.ok _, w3) =>
          let (accountUuid, w4) := freshUuid sdk w3
          let account := sdk.createAccount privateKey password accountUuid params
          let wallet := wallet.addIdentity identity
          let wallet := wallet.addAccount account
          let wallet := wallet.setDefaultIdentity identity.ontid
          let wallet := wallet.setDefaultAccount account.address.b58
          let w5 := storageSet w4 "wallet" (sdk.toJson wallet)
          (.ok ⟨sdk.encSerializeWIF account.encryptedKey, sdk.toJson wallet, wif⟩, w5)

/-- Embedding of `importMnemonics(mnemonics, password, register)`: derive
the private key from the mnemonic, serialize it to WIF, delegate to
`importPrivateKey`, and return its result together with the mnemonics. -/
def importMnemonics (sdk : SDK) (mnemonics password : String)
    (register : Bool) (w : World) : Except Err MnemonicsResult × World :=
  match sdk.generateFromMnemonic mnemonics with
  | .error c => (.error (.exn c), w)
  | .ok privateKey =>
      let wif := sdk.serializeWIF privateKey
      match importPrivateKey sdk wif password register w with
      | (.ok r, w') => (.ok ⟨mnemonics, r.encryptedWif, r.wallet, r.wif⟩, w')
      | (.error e, w') => (.error e, w')

/-- Embedding of `hasStoredWallet()`: the loose `walletEncoded != null`
check is false for both `null` and `undefined` and true for any stored
string, so this is true iff the `"wallet"` storage entry is present under
either backend. -/
def hasStoredWallet (w : World) : Bool × World :=
  (match storageGet w "wallet" with
   | .str _ => true
   | _ => false, w)

/-- Embedding of `getWallet(walletEncoded)`: throws
`Missing wallet data.` when the argument is absent (`null`/`undefined`,
modelled by `none`), else parses it via the SDK. -/
def getWallet (sdk : SDK) (walletEncoded : Option String) : Except Err Wallet :=
  match walletEncoded with
  | none => .error .missingWalletData
  | some s =>
      match sdk.parseJsonObj s with
      | .ok wallet => .ok wallet
      | .error c => .error (.exn c)

/-- Embedding of `getAddress(walletEncoded)`: parses the wallet via
`getWallet` and returns its `defaultAccountAddress`. -/
def getAddress (sdk : SDK) (walletEncoded : Option String) : Except Err String :=
  match getWallet sdk walletEncoded with
  | .ok wallet => .ok wallet.defaultAccountAddress
  | .error e => .error e

/-- State-passing lift of `getWallet`: the source function is synchronous
and performs no storage access, so the world passes through untouched. -/
def getWalletOp (sdk : SDK) (walletEncoded : Option String) (w : World) :
    Except Err Wallet × World :=
  (getWallet sdk walletEncoded, w)

/-- State-passing lift of `getAddress`: the source function is synchronous
and performs no storage access, so the world passes through untouched. -/
def getAddressOp (sdk : SDK) (walletEncoded : Option String) (w : World) :
    Except Err String × World :=
  (getAddress sdk walletEncoded, w)

/-- The identity derived by `importPrivateKey` when the uuid counter starts
at `u` (the identity uuid is the second fresh uuid). -/
def importedIdentity (sdk : SDK) (pk : Nat) (password : String) (u : Nat) :
    Identity :=
  sdk.createIdentity pk password (sdk.uuidGen (u + 1))
    (scryptParams sdk.defaultScrypt)

/-- The account derived by `importPrivateKey` when the uuid counter starts
at `u` (the account uuid is the third fresh uuid). -/
def importedAccount (sdk : SDK) (pk : Nat) (password : String) (u : Nat) :
    Account :=
  sdk.createAccount pk password (sdk.uuidGen (u + 2))
    (scryptParams sdk.defaultScrypt)

/-- The wallet that `importPrivateKey` persists and returns when the uuid
counter starts at `u`: a fresh wallet with the SDK's default scrypt
parameters, holding the derived identity and account, both marked
default. -/
def importedWallet (sdk : SDK) (pk : Nat) (password : String) (u : Nat) :
    Wallet :=
  ((((Wallet.create (sdk.uuidGen u) sdk.defaultScrypt).addIdentity
      (importedIdentity sdk pk password u)).addAccount
      (importedAccount sdk pk password u)).setDefaultIdentity
      (importedIdentity sdk pk password u).ontid).setDefaultAccount
      (importedAccount sdk pk password u).address.b58

/-- The raw serialized registration transaction that `importPrivateKey`
submits when `register` is true: the ONT ID registration transaction for
the derived identity, with the given payer, signed with the private
key. -/
def registerRawTx (sdk : SDK) (pk : Nat) (password : String) (u : Nat)
    (payer : String) : String :=
  sdk.serializeTx (sdk.signTransaction
    { sdk.buildRegisterOntidTx (importedIdentity sdk pk password u).ontid
        (sdk.getPublicKey pk) "0" "30000" with payer := payer } pk)

/-- Concrete wallet used by the witness SDK `mSDK`: it equals
`importedWallet mSDK 1 password 0` for any password. -/
def mWallet : Wallet :=
  ⟨"u0", ⟨16384, 8, 8, 64⟩,
   [⟨"ontid-u1", ["ctrl-u1"]⟩],
   [⟨⟨"addr-u2"⟩, "AAEC/w==", 1⟩],
   "ontid-u1", "addr-u2"⟩

/-- A concrete SDK instance used by witnesses: every WIF deserializes to
key 1, decryption always succeeds, parsing always yields `mWallet`, and
network submission succeeds. -/
def mSDK : SDK where
  defaultScrypt := ⟨16384, 8, 8, 64⟩
  uuidGen := fun n => "u" ++ toString n
  parseJson := fun _ => .ok mWallet
  parseJsonObj := fun _ => .ok mWallet
  parseNonString := 9
  toJson := fun _ => "serializedWallet"
  decrypt := fun _ _ _ _ _ => .ok 0
  deserializeWIF := fun _ => .ok 1
  serializeWIF := fun n => "wif" ++ toString n
  getPublicKey := fun pk => pk + 100
  generateFromMnemonic := fun _ => .ok 1
  createIdentity := fun _ _ id _ => ⟨"ontid-" ++ id, ["ctrl-" ++ id]⟩
  createAccount := fun pk _ id _ => ⟨⟨"addr-" ++ id⟩, "AAEC/w==", pk⟩
  encSerializeWIF := fun n => "enc" ++ toString n
  buildRegisterOntidTx := fun _ pubkey _ _ => ⟨"", pubkey⟩
  signTransaction := fun tx pk => { tx with data := tx.data + pk }
  serializeTx := fun tx => tx.payer ++ toString tx.data
  sendRawTransaction := fun _ => .ok "txhash"

/-- Variant of `mSDK` whose network submission always rejects with code 7. -/
def mSDKsendFail : SDK :=
  { mSDK with sendRawTransaction := fun _ => .error 7 }

/-- Variant of `mSDK` whose decryption always fails with code 3 (wrong
password). -/
def mSDKdecryptFail : SDK :=
  { mSDK with decrypt := fun _ _ _ _ _ => .error 3 }

/-- Variant of `mSDK` whose wallet parsing always fails with code 5
(malformed stored wallet). -/
def mSDKparseFail : SDK :=
  { mSDK with parseJson := fun _ => .error 5 }

/-- A wallet with no accounts. -/
def mWalletEmpty : Wallet :=
  ⟨"e", ⟨16384, 8, 8, 64⟩, [], [], "", ""⟩

/-- Variant of `mSDK` whose wallet parsing yields a wallet with an empty
accounts list. -/
def mSDKemptyAccounts : SDK :=
  { mSDK with parseJson := fun _ => .ok mWalletEmpty }

/-- The empty world on the localStorage backend: nothing stored, nothing
sent, nothing logged. -/
def world0 : World := ⟨.localStorage, [], [], [], 0⟩

/-- A world on the localStorage backend with a wallet already stored under
`"wallet"`. -/
def worldStored : World :=
  ⟨.localStorage, [("wallet", "serializedWallet")], [], [], 0⟩

/-- The empty world on the extension (`browser.storage.local`) backend. -/
def world0ext : World := ⟨.extension, [], [], [], 0⟩

/-- A world on the extension backend with a wallet already stored under
`"wallet"`. -/
def worldStoredExt : World :=
  ⟨.extension, [("wallet", "serializedWallet")], [], [], 0⟩

/-! ## Helper lemmas -/

/-- Looking up a key right after setting it yields the value just set. -/
theorem lookupAssoc_setAssoc_self (l : List (String × String)) (k v : String) :
    lookupAssoc (setAssoc l k v) k = some v := by
  induction l with
  | nil => simp [setAssoc, lookupAssoc]
  | cons hd tl ih =>
      obtain ⟨k', v'⟩ := hd
      by_cases h : k' = k
      · simp [setAssoc, lookupAssoc, h]
      · simp [setAssoc, lookupAssoc, h, ih]

/-- Characterization of `importPrivateKey` with `register = false` and a
deserializable WIF: it succeeds, persists the serialized imported wallet
under `"wallet"`, consumes three uuids, and touches neither the network
log nor the console. -/
theorem importPrivateKey_noRegister_eq (sdk : SDK) (wif password : String)
    (w : World) (pk : Nat) (h : sdk.deserializeWIF wif = .ok pk) :
    importPrivateKey sdk wif password false w =
      (.ok ⟨sdk.encSerializeWIF (importedAccount sdk pk password w.uuidCount).encryptedKey,
            sdk.toJson (importedWallet sdk pk password w.uuidCount), wif⟩,
       { w with
          storage := setAssoc w.storage "wallet"
            (sdk.toJson (importedWallet sdk pk password w.uuidCount)),
          uuidCount := w.uuidCount + 3 }) := by
  simp [importPrivateKey, h, freshUuid, storageSet, importedWallet,
    importedIdentity, importedAccount, Wallet.create, Wallet.addIdentity,
    Wallet.addAccount, Wallet.setDefaultIdentity, Wallet.setDefaultAccount]

/-- Characterization of `importPrivateKey` with `register = true` when the
network submission rejects: the call fails with the submission's own
error, the submission was attempted (network log grew), but nothing was
persisted and no uuid beyond the identity's was consumed. -/
theorem importPrivateKey_registerFail_eq (sdk : SDK) (wif password : String)
    (w : World) (pk c : Nat) (payer : String) (rest : List String)
    (hpk : sdk.deserializeWIF wif = .ok pk)
    (hctrl : (importedIdentity sdk pk password w.uuidCount).controlAddresses
      = payer :: rest)
    (hsend : sdk.sendRawTransaction
      (registerRawTx sdk pk password w.uuidCount payer) = .error c) :
    importPrivateKey sdk wif password true w =
      (.error (.exn c),
       { w with
          netLog := w.netLog ++ [registerRawTx sdk pk password w.uuidCount payer],
          uuidCount := w.uuidCount + 2 }) := by
  simp only [importPrivateKey, freshUuid, hpk]
  simp only [importedIdentity, registerRawTx, scryptParams, Wallet.create] at hctrl hsend ⊢
  rw [hctrl]
  simp [hsend]

/-! ## Claim theorems -/

/-- C1 counterexample: with an SDK whose network submission rejects with
code 7, `importPrivateKey(wif, password, true)` starting from empty
storage fails with exactly that error, yet no `"wallet"` entry has been
persisted — refuting the claim that the new wallet has already been
persisted when registration fails. -/
theorem importPrivateKey_registerFail_not_persisted_cex :
    (importPrivateKey mSDKsendFail "wifX" "pw" true world0).1
        = .error (.exn 7) ∧
      storageGet (importPrivateKey mSDKsendFail "wifX" "pw" true world0).2
        "wallet" = .null :=
  ⟨rfl, rfl⟩

/-- C1 (amended): if the network submission of the registration
transaction rejects, its error propagates unmodified to the caller of
`importPrivateKey`, the submission was attempted, and the new wallet has
NOT been persisted — the storage is exactly what it was before the call,
because registration precedes the persist step. -/
theorem importPrivateKey_registerFail_propagates (sdk : SDK)
    (wif password : String) (w : World) (pk c : Nat) (payer : String)
    (rest : List String)
    (hpk : sdk.deserializeWIF wif = .ok pk)
    (hctrl : (importedIdentity sdk pk password w.uuidCount).controlAddresses
      = payer :: rest)
    (hsend : sdk.sendRawTransaction
      (registerRawTx sdk pk password w.uuidCount payer) = .error c) :
    (importPrivateKey sdk wif password true w).1 = .error (.exn c) ∧
      (importPrivateKey sdk wif password true w).2.storage = w.storage ∧
      (importPrivateKey sdk wif password true w).2.netLog
        = w.netLog ++ [registerRawTx sdk pk password w.uuidCount payer] := by
  rw [importPrivateKey_registerFail_eq sdk wif password w pk c payer rest hpk
    hctrl hsend]
  exact ⟨rfl, rfl, rfl⟩

/-- C1 witness: the amended statement at a concrete SDK and input. -/
theorem importPrivateKey_registerFail_propagates_witness :
    (importPrivateKey mSDKsendFail "wifX" "pw" true world0).1
        = .error (.exn 7) ∧
      (importPrivateKey mSDKsendFail "wifX" "pw" true world0).2.storage
        = world0.storage ∧
      (importPrivateKey mSDKsendFail "wifX" "pw" true world0).2.netLog
        = world0.netLog ++ [registerRawTx mSDKsendFail 1 "pw" 0 "ctrl-u1"] :=
  importPrivateKey_registerFail_propagates mSDKsendFail "wifX" "pw" world0
    1 7 "ctrl-u1" [] rfl rfl rfl

/-- C3: for any SDK and any WIF it can deserialize,
`importPrivateKey(wif, password, false)` succeeds, persists the serialized
imported wallet under the `"wallet"` storage key so that
`hasStoredWallet()` subsequently returns true, and performs no network
operation (the network log is unchanged: the registration branch is
skipped entirely). -/
theorem importPrivateKey_noRegister_persists (sdk : SDK)
    (wif password : String) (w : World) (pk : Nat)
    (hpk : sdk.deserializeWIF wif = .ok pk) :
    (∃ res, (importPrivateKey sdk wif password false w).1 = .ok res) ∧
      storageGet (importPrivateKey sdk wif password false w).2 "wallet"
        = .str (sdk.toJson (importedWallet sdk pk password w.uuidCount)) ∧
      (hasStoredWallet (importPrivateKey sdk wif password false w).2).1
        = true ∧
      (importPrivateKey sdk wif password false w).2.netLog = w.netLog := by
  rw [importPrivateKey_noRegister_eq sdk wif password w pk hpk]
  refine ⟨⟨_, rfl⟩, ?_, ?_, rfl⟩
  · simp [storageGet, lookupAssoc_setAssoc_self]
  · simp [hasStoredWallet, storageGet, lookupAssoc_setAssoc_self]

/-- C3 witness: the statement at a concrete SDK and input. -/
theorem importPrivateKey_noRegister_persists_witness :
    (∃ res, (importPrivateKey mSDK "wifX" "pw" false world0).1 = .ok res) ∧
      storageGet (importPrivateKey mSDK "wifX" "pw" false world0).2 "wallet"
        = .str (mSDK.toJson (importedWallet mSDK 1 "pw" 0)) ∧
      (hasStoredWallet (importPrivateKey mSDK "wifX" "pw" false world0).2).1
        = true ∧
      (importPrivateKey mSDK "wifX" "pw" false world0).2.netLog
        = world0.netLog :=
  importPrivateKey_noRegister_persists mSDK "wifX" "pw" world0 1 rfl

/-- C2: for any mnemonic the SDK can derive a key from, provided the SDK's
round trips hold for the resulting wallet — the serialized WIF
deserializes back, serializing then parsing the imported wallet yields it
back, and the key encrypted during import decrypts with the same password
— `importMnemonics(mnemonics, password, false)` succeeds and a subsequent
`signIn(password)` succeeds without throwing. -/
theorem importMnemonics_then_signIn (sdk : SDK) (mnemonics password : String)
    (w : World) (pk pk2 r : Nat)
    (hgen : sdk.generateFromMnemonic mnemonics = .ok pk)
    (hwif : sdk.deserializeWIF (sdk.serializeWIF pk) = .ok pk2)
    (hparse : sdk.parseJson (sdk.toJson (importedWallet sdk pk2 password w.uuidCount))
      = .ok (importedWallet sdk pk2 password w.uuidCount))
    (hdec : decryptWallet sdk (importedWallet sdk pk2 password w.uuidCount) password
      = .ok r) :
    (∃ res, (importMnemonics sdk mnemonics password false w).1 = .ok res) ∧
      (∃ s, (signIn sdk password
        (importMnemonics sdk mnemonics password false w).2).1 = .ok s) := by
  have himp := importPrivateKey_noRegister_eq sdk (sdk.serializeWIF pk)
    password w pk2 hwif
  simp only [importMnemonics, hgen, himp]
  refine ⟨⟨_, rfl⟩, ?_⟩
  have hget : storageGet
      { w with
        storage := setAssoc w.storage "wallet"
          (sdk.toJson (importedWallet sdk pk2 password w.uuidCount)),
        uuidCount := w.uuidCount + 3 } "wallet"
      = .str (sdk.toJson (importedWallet sdk pk2 password w.uuidCount)) := by
    simp [storageGet, lookupAssoc_setAssoc_self]
  exact ⟨sdk.toJson (importedWallet sdk pk2 password w.uuidCount),
    by simp [signIn, hget, signInTry, hparse, hdec]⟩

/-- C2 witness: the statement at a concrete SDK and input. -/
theorem importMnemonics_then_signIn_witness :
    (∃ res, (importMnemonics mSDK "candy maple" "pw" false world0).1
      = .ok res) ∧
      (∃ s, (signIn mSDK "pw"
        (importMnemonics mSDK "candy maple" "pw" false world0).2).1
        = .ok s) :=
  importMnemonics_then_signIn mSDK "candy maple" "pw" world0 1 1 0
    rfl rfl rfl rfl

/-- C4: whenever the `"wallet"` storage entry holds a serialized wallet
that parses and whose first account's key decrypts with the given
password, `signIn(password)` returns exactly that stored serialized
string, unchanged, and leaves the world untouched (unlock validates but
does not transform or re-serialize the wallet). -/
theorem signIn_returns_stored_serialization (sdk : SDK) (password : String)
    (w : World) (s : String) (wlt : Wallet) (r : Nat)
    (hget : storageGet w "wallet" = .str s)
    (hparse : sdk.parseJson s = .ok wlt)
    (hdec : decryptWallet sdk wlt password = .ok r) :
    signIn sdk password w = (.ok s, w) := by
  simp [signIn, hget, signInTry, hparse, hdec]

/-- C4 witness: the statement at a concrete SDK and stored wallet. -/
theorem signIn_returns_stored_serialization_witness :
    signIn mSDK "pw" worldStored = (.ok "serializedWallet", worldStored) :=
  signIn_returns_stored_serialization mSDK "pw" worldStored
    "serializedWallet" mWallet 0 rfl rfl rfl

/-- C5: whenever the stored wallet parses but decrypting its first
account's key with the given password fails with some exception `e`,
`signIn(password)` fails with the generic decryption-error condition —
not with `e` — returns no data, and appends the underlying exception `e`
to the local console log; storage is untouched. -/
theorem signIn_wrong_password_masks_error (sdk : SDK) (password : String)
    (w : World) (s : String) (wlt : Wallet) (e : Err)
    (hget : storageGet w "wallet" = .str s)
    (hparse : sdk.parseJson s = .ok wlt)
    (hdec : decryptWallet sdk wlt password = .error e) :
    (signIn sdk password w).1 = .error .decryptionError ∧
      (signIn sdk password w).2.console = w.console ++ [e] ∧
      (signIn sdk password w).2.storage = w.storage := by
  simp [signIn, hget, signInTry, hparse, hdec]

/-- C5 witness: the statement at a concrete SDK whose decryption rejects
with code 3. -/
theorem signIn_wrong_password_masks_error_witness :
    (signIn mSDKdecryptFail "bad" worldStored).1 = .error .decryptionError ∧
      (signIn mSDKdecryptFail "bad" worldStored).2.console
        = worldStored.console ++ [Err.exn 3] ∧
      (signIn mSDKdecryptFail "bad" worldStored).2.storage
        = worldStored.storage :=
  signIn_wrong_password_masks_error mSDKdecryptFail "bad" worldStored
    "serializedWallet" mWallet (Err.exn 3) rfl rfl rfl

/-- C6: the claim holds only on the localStorage backend. With no
`"wallet"` entry stored — in particular right after `clear()` — `signIn`
fails with the not-found condition under the localStorage backend, whose
absent value `null` satisfies the strict `=== null` check; but under the
extension backend the same absent entry reads back as `undefined`, which
fails that check and falls into the masked try block, so the very same
situation is reported as the generic decryption error instead of the
distinct not-found condition the claim requires. -/
theorem signIn_absent_wallet_backend_dependent :
    (signIn mSDK "pw" world0).1 = .error .walletNotFound ∧
      (signIn mSDK "pw" (clear worldStored)).1 = .error .walletNotFound ∧
      (signIn mSDK "pw" world0ext).1 = .error .decryptionError ∧
      (signIn mSDK "pw" (clear worldStoredExt)).1
        = .error .decryptionError ∧
      Err.walletNotFound ≠ Err.decryptionError :=
  ⟨rfl, rfl, rfl, rfl, by decide⟩

/-- C7: for any wallet with at least one account, `decryptWallet` passes to
the SDK's decryption routine the first account's salt converted from
base64 to hex, together with the wallet's own four scrypt parameters
(cost `n`, block size `r`, parallelism `p`, derived-key length `dkLen`);
and the conversion is genuine base64-to-hex (checked on a sample salt). -/
theorem decryptWallet_salt_and_params (sdk : SDK) (wallet : Wallet)
    (password : String) (account : Account) (rest : List Account)
    (hacc : wallet.accounts = account :: rest) :
    decryptWallet sdk wallet password =
      (match sdk.decrypt account.encryptedKey password account.address
          (bytesToHex (base64Decode account.salt))
          { blockSize := wallet.scrypt.r, cost := wallet.scrypt.n,
            parallel := wallet.scrypt.p, size := wallet.scrypt.dkLen } with
        | .ok pk => .ok pk
        | .error c => .error (.exn c) : Except Err Nat) ∧
      base64ToHex "AAEC/w==" = "000102ff" := by
  refine ⟨?_, by decide⟩
  simp [decryptWallet, hacc, base64ToHex, scryptParams]

/-- C7 witness: the statement at a concrete SDK and wallet. -/
theorem decryptWallet_salt_and_params_witness :
    decryptWallet mSDK mWallet "pw" =
      (match mSDK.decrypt 1 "pw" ⟨"addr-u2"⟩
          (bytesToHex (base64Decode "AAEC/w=="))
          { blockSize := mWallet.scrypt.r, cost := mWallet.scrypt.n,
            parallel := mWallet.scrypt.p, size := mWallet.scrypt.dkLen } with
        | .ok pk => .ok pk
        | .error c => .error (.exn c) : Except Err Nat) ∧
      base64ToHex "AAEC/w==" = "000102ff" :=
  decryptWallet_salt_and_params mSDK mWallet "pw"
    ⟨⟨"addr-u2"⟩, "AAEC/w==", 1⟩ [] rfl

/-- C8: `getWallet` fails with the missing-data condition exactly when its
input is absent — never for a present input — and for any present input
the SDK parses successfully, it returns the parsed wallet, whose default
account address is exactly what `getAddress` returns on the same
input. -/
theorem getWallet_missing_input (sdk : SDK) :
    getWallet sdk none = .error .missingWalletData ∧
      (∀ s, getWallet sdk (some s) ≠ .error .missingWalletData) ∧
      (∀ s wlt, sdk.parseJsonObj s = .ok wlt →
        getWallet sdk (some s) = .ok wlt ∧
          getAddress sdk (some s) = .ok wlt.defaultAccountAddress) := by
  refine ⟨rfl, fun s => ?_, fun s wlt h => ?_⟩
  · simp only [getWallet]
    cases hp : sdk.parseJsonObj s <;> simp
  · exact ⟨by simp [getWallet, h], by simp [getAddress, getWallet, h]⟩

/-- C8 witness: the statement at a concrete SDK and serialized wallet. -/
theorem getWallet_missing_input_witness :
    getWallet mSDK none = .error .missingWalletData ∧
      getWallet mSDK (some "s") = .ok mWallet ∧
      getAddress mSDK (some "s") = .ok "addr-u2" :=
  ⟨(getWallet_missing_input mSDK).1,
   ((getWallet_missing_input mSDK).2.2 "s" mWallet rfl).1,
   ((getWallet_missing_input mSDK).2.2 "s" mWallet rfl).2⟩

/-- C9: `signIn`, `hasStoredWallet`, `getWallet` and `getAddress` never
write to storage: whatever the input and whether they succeed or fail,
every stored key/value pair — the `"wallet"` entry included — is the same
before and after the operation (`hasStoredWallet`, `getWallet` and
`getAddress` in fact leave the whole world untouched). -/
theorem read_ops_do_not_write_storage (sdk : SDK) (password : String)
    (input : Option String) (w : World) :
    (signIn sdk password w).2.storage = w.storage ∧
      (hasStoredWallet w).2 = w ∧
      (getWalletOp sdk input w).2 = w ∧
      (getAddressOp sdk input w).2 = w := by
  refine ⟨?_, rfl, rfl, rfl⟩
  rcases hg : storageGet w "wallet" with _ | _ | s
  · simp [signIn, hg]
  · simp [signIn, hg]
  · rcases ht : signInTry sdk s password with e | v
    · simp [signIn, hg, ht]
    · simp [signIn, hg, ht]

/-- C10: with a `"wallet"` entry present, `signIn` reports the same
generic decryption-error condition whether the stored value fails to
parse, parses to a wallet with no accounts, or parses but the password
fails to decrypt — the parse runs inside the same masked try/catch, so a
caller cannot distinguish corrupt stored data from a wrong password. -/
theorem signIn_corrupt_data_indistinguishable (sdk : SDK)
    (password : String) (w : World) (s : String)
    (hget : storageGet w "wallet" = .str s) :
    (∀ c, sdk.parseJson s = .error c →
        (signIn sdk password w).1 = .error .decryptionError) ∧
      (∀ wlt, sdk.parseJson s = .ok wlt → wlt.accounts = [] →
        (signIn sdk password w).1 = .error .decryptionError) ∧
      (∀ wlt e, sdk.parseJson s = .ok wlt →
        decryptWallet sdk wlt password = .error e →
        (signIn sdk password w).1 = .error .decryptionError) := by
  refine ⟨fun c hp => ?_, fun wlt hp hacc => ?_, fun wlt e hp hd => ?_⟩
  · simp [signIn, hget, signInTry, hp]
  · simp [signIn, hget, signInTry, hp, decryptWallet, hacc]
  · simp [signIn, hget, signInTry, hp, hd]

/-- C10 witness: the three indistinguishable failures at concrete SDKs —
malformed stored data, a stored wallet with no accounts, and a wrong
password — all yield the same decryption-error condition. -/
theorem signIn_corrupt_data_indistinguishable_witness :
    (signIn mSDKparseFail "pw" worldStored).1 = .error .decryptionError ∧
      (signIn mSDKemptyAccounts "pw" worldStored).1
        = .error .decryptionError ∧
      (signIn mSDKdecryptFail "pw" worldStored).1
        = .error .decryptionError :=
  ⟨(signIn_corrupt_data_indistinguishable mSDKparseFail "pw" worldStored
      "serializedWallet" rfl).1 5 rfl,
   (signIn_corrupt_data_indistinguishable mSDKemptyAccounts "pw" worldStored
      "serializedWallet" rfl).2.1 mWalletEmpty rfl rfl,
   (signIn_corrupt_data_indistinguishable mSDKdecryptFail "pw" worldStored
      "serializedWallet" rfl).2.2 mWallet (Err.exn 3) rfl rfl⟩

end CyanoWallet
